import Mathlib

/-!
Shallow embedding of the storj-lib tunnel subsystem
(`lib/tunnel/client.js`: `TunnelClient` and `TunnelServer`).

Pure functions embed each method or event handler; event-driven state is
passed explicitly.  Each definition cites the source lines it translates.
-/

namespace StorjTunnel

/-- JavaScript runtime values, as far as the tunnel code inspects them
(`typeof x === 'string'` checks in the `TunnelClient` constructor). -/
inductive JSValue where
  | str (s : String)
  | num (n : Int)
  | boolean (b : Bool)
  | null
  | undefined
deriving DecidableEq, Repr

/-- Embeds `typeof v === 'string'`. -/
def JSValue.isString : JSValue → Bool
  | .str _ => true
  | _ => false

/-- State of a `ws` WebSocket as far as the tunnel code reads or writes it:
just its `readyState` number. -/
structure WebSocketState where
  readyState : Nat
deriving DecidableEq, Repr

/-- The `ws` readyState constants (client.js uses `WebSocketClient.CONNECTING`
and `WebSocketClient.OPEN`). -/
def WebSocketClient.CONNECTING : Nat := 0

def WebSocketClient.OPEN : Nat := 1

/-- A kad RPC envelope, external to the tunnel code; the codec layer only
carries its bytes. -/
structure KadMessage where
  buffer : String
deriving DecidableEq, Repr

/-- Embeds `kad.Message.fromBuffer(Buffer(body))` — external collaborator that
wraps response bytes back into an RPC envelope (client.js line 177). -/
def kadMessageFromBuffer (body : String) : KadMessage := ⟨body⟩

/-- A logical tunnel frame as written to the muxer: client.js writes objects
`{type: 'rpc', data, flags: {}}` and
`{type: 'datachannel', data, flags: {binary, quid}}`. -/
inductive Frame where
  | rpc (data : KadMessage)
  | datachannel (data : String) (binary : Bool) (quid : String)
deriving DecidableEq, Repr

/-- Events a `TunnelClient` emits (`open`, `close`, `error`). -/
inductive ClientEvent where
  | opened
  | closed
  | errored (message : String)
deriving DecidableEq, Repr

/-- The `TunnelClient` instance state (client.js lines 31–41):
`_tunuri`, `_target`, `_tunnel`, `_muxer`, `_demuxer`, `_channels`,
`readyState`.  The muxer and demuxer carry no data relevant here, so they
are tracked as presence booleans; `_channels` maps quid strings to loopback
sockets. -/
structure ClientState where
  tunuri : String
  target : String
  tunnel : Option WebSocketState
  muxer : Bool
  demuxer : Bool
  channels : List (String × WebSocketState)
  readyState : Nat
deriving DecidableEq, Repr

/-- Constant `TunnelClient.OPEN = 1` (client.js line 47). -/
def TunnelClient.OPEN : Nat := 1

/-- Constant `TunnelClient.CLOSED = 0` (client.js line 48). -/
def TunnelClient.CLOSED : Nat := 0

/-- The `TunnelClient(tunnel, target, options)` constructor
(client.js lines 23–42): asserts `typeof tunnel === 'string'` then
`typeof target === 'string'` (an `Except.error` carries the assertion
message); on success initialises `_tunnel = null`, `_muxer = null`,
`_demuxer = null`, `_channels = {}`, `readyState = TunnelClient.CLOSED`. -/
def TunnelClient.make (tunnel target : JSValue) : Except String ClientState :=
  match tunnel with
  | .str tu =>
    match target with
    | .str ta =>
      .ok { tunuri := tu
            target := ta
            tunnel := none
            muxer := false
            demuxer := false
            channels := []
            readyState := TunnelClient.CLOSED }
    | _ => .error "Invalid target address supplied"
  | _ => .error "Invalid tunnel address supplied"

/-- Embeds `TunnelClient.prototype.open` (client.js lines 65–116): constructs a
fresh demuxer and muxer and a new WebSocket to `_tunuri` (which starts in
`CONNECTING`), then registers event handlers.  The handlers themselves are
embedded as the `on*` functions below. -/
def TunnelClient.openTunnel (s : ClientState) : ClientState :=
  { s with
    demuxer := true
    muxer := true
    tunnel := some { readyState := WebSocketClient.CONNECTING } }

/-- The `this._tunnel.on('open', ...)` handler (client.js lines 108–111):

```js
this._tunnel.on('open', function() {
  this.readyState = TunnelClient.OPEN;
  self.emit('open');
});
```

Inside the callback `this` is the WebSocket, not the `TunnelClient` (every
sibling handler uses `self` instead), so the assignment writes
`TunnelClient.OPEN` into the socket's own `readyState` and the client's
`readyState` field is untouched.  The embedding reproduces exactly that. -/
def TunnelClient.onTunnelOpen (s : ClientState) : ClientState × List ClientEvent :=
  match s.tunnel with
  | none => (s, [])
  | some t =>
    ({ s with tunnel := some { t with readyState := TunnelClient.OPEN } },
     [ClientEvent.opened])

/-- Embeds `TunnelClient.prototype.close` (client.js lines 122–144): returns
`false` immediately when `_tunnel` is `null`; otherwise removes the muxer
and demuxer listeners, closes the transport when its readyState is
`CONNECTING` or `OPEN` (the socket object is then discarded, so only the
discard is visible in the state), sets `_tunnel = null` and
`readyState = CLOSED`, emits `close` and returns `true`.
Result: `(returnValue, newState, emittedEvents)`. -/
def TunnelClient.close (s : ClientState) : Bool × ClientState × List ClientEvent :=
  match s.tunnel with
  | none => (false, s, [])
  | some _ =>
    (true,
     { s with tunnel := none, readyState := TunnelClient.CLOSED },
     [ClientEvent.closed])

/-- Embeds `TunnelClient.prototype._forwardResponse` (client.js lines 169–180):
the `request` callback for a forwarded RPC.  On error it only emits
`error`; on success it writes an `rpc` frame wrapping
`kad.Message.fromBuffer(Buffer(body))` to the muxer.
Result: `(newState, emittedEvents, framesWrittenToMuxer)`. -/
def TunnelClient.forwardResponse (s : ClientState) (err : Option String)
    (body : String) : ClientState × List ClientEvent × List Frame :=
  match err with
  | some e => (s, [ClientEvent.errored e], [])
  | none => (s, [], [Frame.rpc (kadMessageFromBuffer body)])

/-- JSON string escaping as `JSON.stringify` performs it on the
`message` string (backslash and double quote; the tunnel code never
produces control characters here). -/
def jsonEscapeChar (c : Char) : String :=
  if c = '\\' then "\\\\"
  else if c = '\"' then "\\\""
  else String.singleton c

/-- See `jsonEscapeChar`. -/
def jsonEscape (s : String) : String :=
  String.join (s.toList.map jsonEscapeChar)

/-- Embeds `JSON.stringify({ code: code, message: message })` as executed at
client.js line 239 (keys serialise in insertion order). -/
def jsonStringifyCloseInfo (code : Nat) (message : String) : String :=
  "\x7b\"code\":" ++ toString code ++ ",\"message\":\"" ++ jsonEscape message ++ "\"\x7d"

/-- Remove the key `quid` from the channels map
(`delete self._channels[quid]`, client.js line 231). -/
def deleteChannel (channels : List (String × WebSocketState)) (quid : String) :
    List (String × WebSocketState) :=
  channels.filter (fun p => p.1 ≠ quid)

/-- Events a loopback data-channel socket delivers to the handlers that
`_handleDataChannel` registers on it (client.js lines 211–245). -/
inductive LoopbackEvent where
  | message (data : String) (binary : Bool)
  | closeEvent (code : Nat) (message : String)
deriving DecidableEq, Repr

/-- The `socket.on('message', ...)` handler (client.js lines 219–228):
writes a `datachannel` frame with the same data, the socket flags'
`binary`, and the captured `quid` to the muxer. -/
def TunnelClient.onLoopbackMessage (quid : String) (data : String)
    (binary : Bool) : Frame :=
  Frame.datachannel data binary quid

/-- The `socket.on('close', ...)` handler (client.js lines 230–245):
deletes `channels[quid]` and writes a terminal `datachannel` frame whose
payload is `JSON.stringify({code, message})` with `binary: false`. -/
def TunnelClient.onLoopbackClose (channels : List (String × WebSocketState))
    (quid : String) (code : Nat) (message : String) :
    List (String × WebSocketState) × Frame :=
  (deleteChannel channels quid,
   Frame.datachannel (jsonStringifyCloseInfo code message) false quid)

/-- Run the loopback-socket handlers over a trace of socket events for one
`quid`, threading the channels map and collecting the frames written to the
muxer, in order. -/
def processLoopbackEvents (channels : List (String × WebSocketState))
    (quid : String) : List LoopbackEvent →
    List (String × WebSocketState) × List Frame
  | [] => (channels, [])
  | LoopbackEvent.message d b :: rest =>
    let r := processLoopbackEvents channels quid rest
    (r.1, TunnelClient.onLoopbackMessage quid d b :: r.2)
  | LoopbackEvent.closeEvent c m :: rest =>
    let step := TunnelClient.onLoopbackClose channels quid c m
    let r := processLoopbackEvents step.1 quid rest
    (r.1, step.2 :: r.2)

/-- Embeds `options.gatewayPortRange`: `min` is `none` when omitted (JS
`undefined`); `min = some 0` and `min = none` are both falsy. -/
structure GatewayPortRange where
  min : Option Nat
  max : Nat
deriving DecidableEq, Repr

/-- The server options the tunnel logic reads. -/
structure TunnelServerOptions where
  serverPort : Nat
  maxTunnels : Nat
  gatewayPortRange : GatewayPortRange
  autoBindServer : Bool
deriving DecidableEq, Repr

/-- Embeds `TunnelServer.DEFAULTS` (client.js lines 779–789): `serverPort: 4001`,
`maxTunnels: 3`, `gatewayPortRange: { min: 4002, max: 4004 }`,
`autoBindServer: true`. -/
def TunnelServer.DEFAULTS : TunnelServerOptions :=
  { serverPort := 4001
    maxTunnels := 3
    gatewayPortRange := { min := some 4002, max := 4004 }
    autoBindServer := true }

/-- Events a `TunnelServer` emits (`ready`, `locked`, `unlocked`). -/
inductive ServerEvent where
  | ready
  | locked
  | unlocked
deriving DecidableEq, Repr

/-- The `TunnelServer` instance state (client.js lines 744–757):
`_gateways` is an object keyed by token — modelled by its key list (the
gateway values carry nothing the claims need); `_authorized` is a list of
tokens; `_usedPorts` a list of port numbers. -/
structure ServerState where
  maxTunnels : Nat
  gatewayPortRange : GatewayPortRange
  gateways : List String
  authorized : List String
  usedPorts : List Nat
deriving DecidableEq, Repr

/-- Embeds `TunnelServer.prototype._verifyClient` (client.js lines 912–924): if
`this._authorized.indexOf(token) === -1`, call `callback(false, 401)`;
otherwise splice the token out of `_authorized` (removing its first
occurrence) and call `callback(true)`.
Result: `(newState, (accepted, httpStatus))`. -/
def TunnelServer.verifyClient (s : ServerState) (token : String) :
    ServerState × Bool × Option Nat :=
  if token ∈ s.authorized then
    ({ s with authorized := s.authorized.erase token }, true, none)
  else
    (s, false, some 401)

/-- Embeds `TunnelServer.prototype._getAvailablePort` (client.js lines 930–950):
returns `0` when `gatewayPortRange.min` is falsy; otherwise builds the list
`[min, min+1, ..., max]`, splices out the first occurrence of each used
port, and returns `available[Math.floor(Math.random() * available.length)]`
— `idx` stands for that floored random index, and an out-of-range index
(in particular, an empty `available`) yields JS `undefined`, here `none`. -/
def TunnelServer.getAvailablePort (range : GatewayPortRange)
    (used : List Nat) (idx : Nat) : Option Nat :=
  match range.min with
  | none => some 0
  | some lo =>
    if lo = 0 then some 0
    else
      let available := (List.range (range.max + 1 - lo)).map (fun i => lo + i)
      let available := used.foldl (fun acc p => acc.erase p) available
      available[idx]?

/-- Outcome of the synchronous part of `createGateway`: either the callback
is invoked at once with an `Error(message)`, or a gateway is instantiated
with the leased port (`none` when `_getAvailablePort` returned `undefined`)
and its `open()` is started. -/
inductive CreateGatewayResult where
  | err (message : String)
  | started (port : Option Nat) (token : String)
deriving DecidableEq, Repr

/-- The synchronous body of `TunnelServer.prototype.createGateway`
(client.js lines 850–887): when `Object.keys(this._gateways).length >=
maxTunnels` the callback receives `Error('Maximum number of tunnels open')`
and nothing else happens; otherwise a `TunnelGateway` is constructed with
`this._getAvailablePort()` and opened (`token` is the gateway's random
entrance token, `idx` the random port index).  The state is mutated only by
the gateway's later `open` event (`TunnelServer.gatewayOpen`). -/
def TunnelServer.createGateway (s : ServerState) (token : String)
    (idx : Nat) : ServerState × CreateGatewayResult :=
  if s.maxTunnels ≤ s.gateways.length then
    (s, CreateGatewayResult.err "Maximum number of tunnels open")
  else
    (s,
     CreateGatewayResult.started
       (TunnelServer.getAvailablePort s.gatewayPortRange s.usedPorts idx)
       token)

/-- The `gateway.on('open', ...)` handler inside `createGateway`
(client.js lines 869–882): records `gateways[token] = gateway` (object
keys are unique, so an existing key is not duplicated), pushes the bound
port onto `_usedPorts`, emits `locked` when
`Object.keys(gateways).length >= maxTunnels`, and pushes the token onto
`_authorized`.  Result: `(newState, emittedEvents)`. -/
def TunnelServer.gatewayOpen (s : ServerState) (token : String)
    (port : Nat) : ServerState × List ServerEvent :=
  let gateways := if token ∈ s.gateways then s.gateways else s.gateways ++ [token]
  let lockedEvents :=
    if s.maxTunnels ≤ gateways.length then [ServerEvent.locked] else []
  ({ s with
      gateways := gateways
      usedPorts := s.usedPorts ++ [port]
      authorized := s.authorized ++ [token] },
   lockedEvents)

/-- Embeds `this._usedPorts.splice(this._usedPorts.indexOf(usedPort), 1)`
(client.js line 865): when `usedPort` is present its first occurrence is
removed; when absent (or still `null`) `indexOf` is `-1` and
`splice(-1, 1)` removes the last element. -/
def spliceAtIndexOf (l : List Nat) (x : Option Nat) : List Nat :=
  match x with
  | some v => if v ∈ l then l.erase v else l.dropLast
  | none => l.dropLast

/-- The `gateway.on('close', ...)` handler inside `createGateway`
(client.js lines 863–867): deletes `gateways[token]`, splices the
gateway's port out of `_usedPorts`, and emits `unlocked` —
unconditionally.  Result: `(newState, emittedEvents)`. -/
def TunnelServer.gatewayClose (s : ServerState) (token : String)
    (usedPort : Option Nat) : ServerState × List ServerEvent :=
  ({ s with
      gateways := s.gateways.erase token
      usedPorts := spliceAtIndexOf s.usedPorts usedPort },
   [ServerEvent.unlocked])

/-- The free subset of the configured port range: the spec's "subset of
`[gatewayPortRange.min, gatewayPortRange.max]` not currently in
`usedPorts`", stated from the spec's words for comparison with
`TunnelServer.getAvailablePort`. -/
def freePorts (range : GatewayPortRange) (lo : Nat) (used : List Nat) :
    List Nat :=
  ((List.range (range.max + 1 - lo)).map (fun i => lo + i)).filter
    (fun p => decide (p ∉ used))

/-- A concrete server state used by the witnesses below: the default
configuration with the given gateways, authorized tokens and used ports. -/
def sampleServer (gateways authorized : List String) (usedPorts : List Nat) :
    ServerState :=
  { maxTunnels := 3
    gatewayPortRange := { min := some 4002, max := 4004 }
    gateways := gateways
    authorized := authorized
    usedPorts := usedPorts }

/-- A concrete client state with an open tunnel, as produced by the
constructor followed by `openTunnel` and the transport's open event. -/
def sampleOpenClient : ClientState :=
  { tunuri := "ws://tunnel"
    target := "http://target"
    tunnel := some { readyState := WebSocketClient.OPEN }
    muxer := true
    demuxer := true
    channels := []
    readyState := TunnelClient.CLOSED }

/-- Folding `List.erase` over the used ports removes from a duplicate-free
list exactly the elements of `used` (the loop at client.js lines 943–947). -/
theorem foldl_erase_eq_filter (used : List Nat) :
    ∀ l : List Nat, l.Nodup →
      used.foldl (fun acc p => acc.erase p) l
        = l.filter (fun x => decide (x ∉ used)) := by
  induction used with
  | nil =>
    intro l _
    simp
  | cons p rest ih =>
    intro l hl
    rw [List.foldl_cons, ih (l.erase p) (hl.erase p)]
    rw [hl.erase_eq_filter p, List.filter_filter]
    apply List.filter_congr
    intro x _
    by_cases h1 : x = p <;> by_cases h2 : x ∈ rest <;> simp [h1, h2]

/-- C1: Admission tokens are one-shot: a token outside `_authorized` is
rejected with status 401 and the state is unchanged; a token inside
`_authorized` (present at most once, as tokens are unique) is accepted,
removed from `_authorized`, and a second upgrade attempt with the same
token is rejected with status 401. -/
theorem C1_token_one_shot (s : ServerState) (token : String)
    (hcount : s.authorized.count token ≤ 1) :
    (token ∉ s.authorized →
      TunnelServer.verifyClient s token = (s, false, some 401)) ∧
    (token ∈ s.authorized →
      (TunnelServer.verifyClient s token).2 = (true, none) ∧
      token ∉ (TunnelServer.verifyClient s token).1.authorized ∧
      TunnelServer.verifyClient (TunnelServer.verifyClient s token).1 token =
        ((TunnelServer.verifyClient s token).1, false, some 401)) := by
  constructor
  · intro h
    simp [TunnelServer.verifyClient, h]
  · intro h
    have hnot : token ∉ s.authorized.erase token := by
      rw [← List.count_eq_zero, List.count_erase_self]
      omega
    have h1 : TunnelServer.verifyClient s token =
        ({ s with authorized := s.authorized.erase token }, true, none) := by
      simp [TunnelServer.verifyClient, h]
    rw [h1]
    exact ⟨rfl, hnot, by simp [TunnelServer.verifyClient, hnot]⟩

/-- Witness for `C1_token_one_shot` at a concrete state holding the
authorized token "T". -/
theorem C1_token_one_shot_witness :
    (sampleServer ["T"] ["T"] [4002]).authorized.count "T" ≤ 1 ∧
    (("T" ∉ (sampleServer ["T"] ["T"] [4002]).authorized →
      TunnelServer.verifyClient (sampleServer ["T"] ["T"] [4002]) "T" =
        (sampleServer ["T"] ["T"] [4002], false, some 401)) ∧
    ("T" ∈ (sampleServer ["T"] ["T"] [4002]).authorized →
      (TunnelServer.verifyClient (sampleServer ["T"] ["T"] [4002]) "T").2 =
        (true, none) ∧
      "T" ∉ (TunnelServer.verifyClient
        (sampleServer ["T"] ["T"] [4002]) "T").1.authorized ∧
      TunnelServer.verifyClient
          (TunnelServer.verifyClient (sampleServer ["T"] ["T"] [4002]) "T").1
          "T" =
        ((TunnelServer.verifyClient (sampleServer ["T"] ["T"] [4002]) "T").1,
         false, some 401))) :=
  ⟨by decide, C1_token_one_shot (sampleServer ["T"] ["T"] [4002]) "T" (by decide)⟩

/-- C2: whenever `|gateways| ≥ maxTunnels`, `createGateway` invokes its
callback with the `Error('Maximum number of tunnels open')`
(TunnelsExhausted) and does not create a gateway: the state is returned
unchanged and no gateway is started. -/
theorem C2_tunnels_exhausted (s : ServerState) (token : String) (idx : Nat)
    (h : s.maxTunnels ≤ s.gateways.length) :
    TunnelServer.createGateway s token idx =
      (s, CreateGatewayResult.err "Maximum number of tunnels open") := by
  simp [TunnelServer.createGateway, h]

/-- Witness for `C2_tunnels_exhausted`: a state at the default cap of 3. -/
theorem C2_tunnels_exhausted_witness :
    (sampleServer ["a", "b", "c"] [] []).maxTunnels ≤
      (sampleServer ["a", "b", "c"] [] []).gateways.length ∧
    TunnelServer.createGateway (sampleServer ["a", "b", "c"] [] []) "t4" 0 =
      (sampleServer ["a", "b", "c"] [] [],
       CreateGatewayResult.err "Maximum number of tunnels open") :=
  ⟨by decide,
   C2_tunnels_exhausted (sampleServer ["a", "b", "c"] [] []) "t4" 0 (by decide)⟩

/-- C3: the claim says `open()` transitions the client's `ready_state` from
CLOSED to OPEN when the transport reports its open event.  The code at
client.js lines 108–111 assigns `TunnelClient.OPEN` to `this.readyState`
inside the handler, where `this` is the WebSocket — not the client — so
after the constructor, `open()` and the transport's open event, the
client's `readyState` is still `TunnelClient.CLOSED`, the misdirected
write lands on the socket, and only the `open` event emission behaves as
claimed. -/
theorem C3_open_readyState_bug :
    (TunnelClient.make (JSValue.str "ws://tunnel")
        (JSValue.str "http://target")).map
      (fun s =>
        ((TunnelClient.onTunnelOpen (TunnelClient.openTunnel s)).1.readyState,
         (TunnelClient.onTunnelOpen (TunnelClient.openTunnel s)).1.tunnel,
         (TunnelClient.onTunnelOpen (TunnelClient.openTunnel s)).2)) =
    Except.ok (TunnelClient.CLOSED, some ⟨TunnelClient.OPEN⟩,
      [ClientEvent.opened]) := rfl

/-- C4 counterexample: in a state strictly below the cap (1 gateway,
`maxTunnels = 3`), closing a gateway still emits `unlocked`, which the
claim says must not happen for closes below the cap. -/
theorem C4_unlocked_below_cap_cex :
    (sampleServer ["t1"] [] [4002]).gateways.length <
      (sampleServer ["t1"] [] [4002]).maxTunnels ∧
    (TunnelServer.gatewayClose (sampleServer ["t1"] [] [4002]) "t1"
        (some 4002)).2 = [ServerEvent.unlocked] := by
  exact ⟨by decide, rfl⟩

/-- C4 amended: `locked` is emitted on a gateway open exactly when the
creation brings `|gateways|` up to `maxTunnels`; `unlocked` is emitted on
every gateway close, unconditionally (even when `|gateways|` was below the
cap). -/
theorem C4_lock_signals_amended (s : ServerState) (token : String)
    (port : Nat) (usedPort : Option Nat)
    (hlt : s.gateways.length < s.maxTunnels) (hnew : token ∉ s.gateways) :
    ((TunnelServer.gatewayOpen s token port).2 = [ServerEvent.locked] ↔
      s.gateways.length + 1 = s.maxTunnels) ∧
    (TunnelServer.gatewayClose s token usedPort).2 =
      [ServerEvent.unlocked] := by
  constructor
  · by_cases hc : s.maxTunnels ≤ s.gateways.length + 1
    · simp [TunnelServer.gatewayOpen, hnew, hc]
      omega
    · simp [TunnelServer.gatewayOpen, hnew, hc]
      omega
  · rfl

/-- Witness for `C4_lock_signals_amended`: opening the third gateway of
three emits `locked`, and the close handler emits `unlocked`. -/
theorem C4_lock_signals_amended_witness :
    (sampleServer ["a", "b"] [] []).gateways.length <
      (sampleServer ["a", "b"] [] []).maxTunnels ∧
    "c" ∉ (sampleServer ["a", "b"] [] []).gateways ∧
    (((TunnelServer.gatewayOpen (sampleServer ["a", "b"] [] []) "c" 4002).2 =
        [ServerEvent.locked] ↔
      (sampleServer ["a", "b"] [] []).gateways.length + 1 =
        (sampleServer ["a", "b"] [] []).maxTunnels) ∧
    (TunnelServer.gatewayClose (sampleServer ["a", "b"] [] []) "c" none).2 =
      [ServerEvent.unlocked]) :=
  ⟨by decide, by decide,
   C4_lock_signals_amended (sampleServer ["a", "b"] [] []) "c" 4002 none
     (by decide) (by decide)⟩

/-- C5 counterexample: with range 4002–4003 fully leased the free subset is
empty, yet `_getAvailablePort` returns JS `undefined` (`none`) — there is
no NoFreePort error anywhere in `createGateway`, which proceeds to start a
gateway with an undefined port instead of failing synchronously. -/
theorem C5_no_free_port_cex :
    TunnelServer.getAvailablePort ⟨some 4002, 4003⟩ [4002, 4003] 0 = none ∧
    TunnelServer.createGateway
        (⟨3, ⟨some 4002, 4003⟩, [], [], [4002, 4003]⟩ : ServerState) "t" 0 =
      ((⟨3, ⟨some 4002, 4003⟩, [], [], [4002, 4003]⟩ : ServerState),
       CreateGatewayResult.started none "t") := by
  exact ⟨by decide, by decide⟩

/-- C5 amended: with a truthy `gatewayPortRange.min`, `_getAvailablePort`
indexes the free subset of `[min, max]` (every free port is the outcome
for some random index, and only free ports are outcomes); when the free
subset is empty it returns JS `undefined` (`none`) rather than a NoFreePort
error, and `createGateway` proceeds with that undefined port. -/
theorem C5_port_lease_amended (range : GatewayPortRange) (used : List Nat)
    (idx : Nat) (lo : Nat) (hmin : range.min = some lo) (hlo : lo ≠ 0) :
    (∀ h : idx < (freePorts range lo used).length,
      TunnelServer.getAvailablePort range used idx =
        some ((freePorts range lo used).get ⟨idx, h⟩)) ∧
    (freePorts range lo used = [] →
      TunnelServer.getAvailablePort range used idx = none) := by
  have hav : used.foldl (fun acc p => acc.erase p)
      ((List.range (range.max + 1 - lo)).map (fun i => lo + i))
      = freePorts range lo used := by
    apply foldl_erase_eq_filter
    exact (List.nodup_range _).map (fun a b hab => by omega)
  constructor
  · intro h
    simp only [TunnelServer.getAvailablePort, hmin, hlo, if_false, hav]
    exact List.getElem?_eq_getElem h
  · intro he
    simp only [TunnelServer.getAvailablePort, hmin, hlo, if_false, hav, he]
    rfl

/-- Witness for `C5_port_lease_amended`: range 4002–4004 with 4003 leased
has free subset `[4002, 4004]`; index 0 leases 4002. -/
theorem C5_port_lease_amended_witness :
    (0 : Nat) < (freePorts ⟨some 4002, 4004⟩ 4002 [4003]).length ∧
    TunnelServer.getAvailablePort ⟨some 4002, 4004⟩ [4003] 0 = some 4002 := by
  refine ⟨by decide, ?_⟩
  have h := (C5_port_lease_amended ⟨some 4002, 4004⟩ [4003] 0 4002 rfl
    (by decide)).1 (by decide)
  exact h

/-- C6: when the loopback socket for `quid` delivers some messages and then
closes with `(code, message)` (a socket emits nothing after close), the
handlers remove `channels[quid]`, the frame written for the close is a
`datachannel` frame with `binary = false` whose payload is
`JSON.stringify({code, message})`, and it is the last frame written for
that quid. -/
theorem C6_terminal_frame (channels : List (String × WebSocketState))
    (quid : String) (msgs : List (String × Bool)) (code : Nat)
    (message : String) :
    processLoopbackEvents channels quid
        (msgs.map (fun p => LoopbackEvent.message p.1 p.2)
          ++ [LoopbackEvent.closeEvent code message]) =
      (deleteChannel channels quid,
       msgs.map (fun p => Frame.datachannel p.1 p.2 quid)
         ++ [Frame.datachannel (jsonStringifyCloseInfo code message) false
               quid]) ∧
    (msgs.map (fun p => Frame.datachannel p.1 p.2 quid)
         ++ [Frame.datachannel (jsonStringifyCloseInfo code message) false
               quid]).getLast?
      = some (Frame.datachannel (jsonStringifyCloseInfo code message) false
          quid) := by
  constructor
  · induction msgs with
    | nil =>
      simp [processLoopbackEvents, TunnelClient.onLoopbackClose]
    | cons m rest ih =>
      simp only [List.map_cons, List.cons_append, processLoopbackEvents,
        List.append_eq, ih, TunnelClient.onLoopbackMessage]
  · exact List.getLast?_concat _

/-- C7: `close()` is idempotent: with an active tunnel the first call
returns `true` and leaves `readyState = CLOSED`, the second call returns
`false` and changes nothing; with no active tunnel, `close()` returns
`false` and leaves the whole state unchanged, emitting nothing. -/
theorem C7_close_idempotent (s : ClientState) :
    (∀ t, s.tunnel = some t →
      (TunnelClient.close s).1 = true ∧
      (TunnelClient.close s).2.1.readyState = TunnelClient.CLOSED ∧
      (TunnelClient.close (TunnelClient.close s).2.1).1 = false ∧
      (TunnelClient.close (TunnelClient.close s).2.1).2.1 =
        (TunnelClient.close s).2.1 ∧
      (TunnelClient.close (TunnelClient.close s).2.1).2.1.readyState =
        TunnelClient.CLOSED) ∧
    (s.tunnel = none → TunnelClient.close s = (false, s, [])) := by
  constructor
  · intro t ht
    simp [TunnelClient.close, ht]
  · intro h
    simp [TunnelClient.close, h]

/-- Witness for `C7_close_idempotent` at a concrete opened client. -/
theorem C7_close_idempotent_witness :
    sampleOpenClient.tunnel = some { readyState := WebSocketClient.OPEN } ∧
    ((TunnelClient.close sampleOpenClient).1 = true ∧
     (TunnelClient.close sampleOpenClient).2.1.readyState =
       TunnelClient.CLOSED ∧
     (TunnelClient.close (TunnelClient.close sampleOpenClient).2.1).1 =
       false ∧
     (TunnelClient.close (TunnelClient.close sampleOpenClient).2.1).2.1 =
       (TunnelClient.close sampleOpenClient).2.1 ∧
     (TunnelClient.close
         (TunnelClient.close sampleOpenClient).2.1).2.1.readyState =
       TunnelClient.CLOSED) :=
  ⟨rfl, (C7_close_idempotent sampleOpenClient).1
    { readyState := WebSocketClient.OPEN } rfl⟩

/-- C8: when the HTTP POST of an inbound rpc frame fails, the client emits
the `error` event and nothing else: the returned state is the input state
(tunnel, muxer, demuxer, channels and readyState untouched) and no frame
is written to the muxer. -/
theorem C8_rpc_error_no_teardown (s : ClientState) (e : String)
    (body : String) :
    TunnelClient.forwardResponse s (some e) body =
      (s, [ClientEvent.errored e], []) := rfl

/-- C9 counterexample: the default `gatewayPortRange.max` is 4004, not the
4003 the claim states (the jsdoc at client.js line 735 says 4003, but the
`DEFAULTS` object at line 785 says 4004). -/
theorem C9_default_port_range_cex :
    TunnelServer.DEFAULTS.gatewayPortRange.max = 4004 ∧
    TunnelServer.DEFAULTS.gatewayPortRange.max ≠ 4003 := by decide

/-- C9 amended: the default port-leasing range is `min = 4002`,
`max = 4004`, and a falsy `min` (omitted, i.e. `undefined`, or `0`) makes
`_getAvailablePort` return 0, the ephemeral port. -/
theorem C9_default_port_range_amended :
    TunnelServer.DEFAULTS.gatewayPortRange.min = some 4002 ∧
    TunnelServer.DEFAULTS.gatewayPortRange.max = 4004 ∧
    ∀ (range : GatewayPortRange) (used : List Nat) (idx : Nat),
      (range.min = none ∨ range.min = some 0) →
      TunnelServer.getAvailablePort range used idx = some 0 := by
  refine ⟨rfl, rfl, ?_⟩
  intro range used idx h
  rcases h with h | h <;> simp [TunnelServer.getAvailablePort, h]

/-- Witness for `C9_default_port_range_amended` with an omitted `min`. -/
theorem C9_default_port_range_amended_witness :
    ((⟨none, 4003⟩ : GatewayPortRange).min = none ∨
      (⟨none, 4003⟩ : GatewayPortRange).min = some 0) ∧
    TunnelServer.getAvailablePort ⟨none, 4003⟩ [] 0 = some 0 :=
  ⟨Or.inl rfl,
   C9_default_port_range_amended.2.2 ⟨none, 4003⟩ [] 0 (Or.inl rfl)⟩

/-- C10: the constructor succeeds exactly when both the tunnel and the
target arguments are strings (otherwise the `assert` throws and no client
is produced), and every successfully constructed client starts with
`readyState = CLOSED`, an empty channels map and no tunnel socket. -/
theorem C10_constructor_asserts (tunnel target : JSValue) :
    ((TunnelClient.make tunnel target).isOk
       = (tunnel.isString && target.isString)) ∧
    (∀ s, TunnelClient.make tunnel target = Except.ok s →
      s.readyState = TunnelClient.CLOSED ∧ s.channels = [] ∧
      s.tunnel = none) := by
  constructor
  · cases tunnel <;> cases target <;> rfl
  · intro s h
    cases tunnel <;> cases target <;> simp [TunnelClient.make] at h
    simp [← h]

/-- Witness for `C10_constructor_asserts` at concrete string arguments. -/
theorem C10_constructor_asserts_witness :
    TunnelClient.make (JSValue.str "ws://tunnel")
        (JSValue.str "http://target") =
      Except.ok
        { tunuri := "ws://tunnel", target := "http://target", tunnel := none,
          muxer := false, demuxer := false, channels := [],
          readyState := TunnelClient.CLOSED } ∧
    ((⟨"ws://tunnel", "http://target", none, false, false, [],
        TunnelClient.CLOSED⟩ : ClientState).readyState =
      TunnelClient.CLOSED ∧
     (⟨"ws://tunnel", "http://target", none, false, false, [],
        TunnelClient.CLOSED⟩ : ClientState).channels = [] ∧
     (⟨"ws://tunnel", "http://target", none, false, false, [],
        TunnelClient.CLOSED⟩ : ClientState).tunnel = none) :=
  ⟨rfl,
   (C10_constructor_asserts (JSValue.str "ws://tunnel")
     (JSValue.str "http://target")).2 _ rfl⟩

end StorjTunnel
